import Mathlib

/-!
Verification of the drop countdown / status / notify components of
src/assets/drop-countdown.js (classes DropCountdown, DropStatus, DropNotify).

Timestamps are modelled as integers (milliseconds, as JavaScript Date values
compare and subtract numerically); an absent or null date is `none`.
DOM state touched by each class is modelled as an explicit record, and each
method becomes a pure state-transition function translated line by line from
the source. Emitted drop-status-change events are returned alongside the new
state as an `Option Status`.
-/

namespace RefTheme

/-- The three derived drop statuses appearing in the source as the strings
"upcoming", "live" and "ended". -/
inductive Status
  | upcoming
  | live
  | ended
  deriving DecidableEq, Repr

/-- Rank of a status in the order Upcoming < Live < Ended. -/
def Status.rank : Status → Nat
  | .upcoming => 0
  | .live => 1
  | .ended => 2

/-- Models the JavaScript guarded comparison `d && now < d` where `d` is a
nullable Date: null is falsy, so an absent date makes the whole test false. -/
def ltOpt (now : Int) (d : Option Int) : Bool :=
  match d with
  | some t => decide (now < t)
  | none => false

namespace DropCountdown

/-- DropCountdown.getStatus (drop-countdown.js lines 73-81):
if (startDate && now < startDate) return upcoming;
else if (endDate && now < endDate) return live; else return ended. -/
def getStatus (startDate endDate : Option Int) (now : Int) : Status :=
  if ltOpt now startDate then .upcoming
  else if ltOpt now endDate then .live
  else .ended

end DropCountdown

namespace DropStatus

/-- The status computation inside DropStatus.updateStatus
(drop-countdown.js lines 139-145), written with the same if chain. -/
def computeStatus (startDate endDate : Option Int) (now : Int) : Status :=
  if ltOpt now startDate then .upcoming
  else if ltOpt now endDate then .live
  else .ended

end DropStatus

/-- The three-way status rule exactly as the spec words it: Upcoming if
startInstant is present and now < startInstant; else Live if endInstant is
present and now < endInstant; else Ended. Stated independently of the source
embedding so the two can be compared. -/
def statusOfSpec (now : Int) (startInstant endInstant : Option Int) : Status :=
  match startInstant with
  | some s =>
    if now < s then .upcoming
    else
      match endInstant with
      | some e => if now < e then .live else .ended
      | none => .ended
  | none =>
    match endInstant with
    | some e => if now < e then .live else .ended
    | none => .ended

namespace DropCountdown

/-- The DOM-facing state of one drop-countdown element: the two parsed dates,
whether the setInterval handle is live (intervalId not null), whether the
ended modifier class is set, and the text content of the four digit slots
(`none` when the slot element is missing from the markup). -/
structure CountdownState where
  startDate : Option Int
  endDate : Option Int
  intervalActive : Bool
  endedClass : Bool
  daysEl : Option String
  hoursEl : Option String
  minutesEl : Option String
  secondsEl : Option String
  deriving DecidableEq, Repr

/-- DropCountdown.padZero (lines 96-98): num.toString().padStart(2, zero),
padding the decimal string on the left with zero characters up to length 2. -/
def padZero (num : Int) : String :=
  if (toString num).length < 2 then
    String.mk (List.replicate (2 - (toString num).length) '0') ++ toString num
  else toString num

/-- One guarded slot write from DropCountdown.setValues: if the element is
present its text becomes the padded value (animateValue writes the text only
when it differs, which leaves the same resulting text either way); a missing
element is skipped. -/
def setSlot (el : Option String) (v : Int) : Option String :=
  el.map fun _ => padZero v

/-- DropCountdown.setValues (lines 83-88). -/
def setValues (st : CountdownState) (days hours minutes seconds : Int) :
    CountdownState :=
  { st with
    daysEl := setSlot st.daysEl days
    hoursEl := setSlot st.hoursEl hours
    minutesEl := setSlot st.minutesEl minutes
    secondsEl := setSlot st.secondsEl seconds }

/-- DropCountdown.showEnded (lines 100-107): clear the interval if one is
set, add the drop-countdown--ended class, zero all four slots. -/
def showEnded (st : CountdownState) : CountdownState :=
  let st1 := if st.intervalActive then { st with intervalActive := false } else st
  setValues { st1 with endedClass := true } 0 0 0 0

/-- The remaining-time decomposition of DropCountdown.update (lines 65-68),
Math.floor on quotients and the JavaScript remainder on positive values:
days, hours within day, minutes within hour, seconds within minute. -/
def decompose (diff : Int) : Int × Int × Int × Int :=
  (Int.fdiv diff (1000 * 60 * 60 * 24),
   Int.fdiv (Int.tmod diff (1000 * 60 * 60 * 24)) (1000 * 60 * 60),
   Int.fdiv (Int.tmod diff (1000 * 60 * 60)) (1000 * 60),
   Int.fdiv (Int.tmod diff (1000 * 60)) 1000)

/-- DropCountdown.update (lines 35-71): recompute status from the current
instant; Ended (or a missing target date) leads to showEnded; otherwise take
diff to the target; when diff is not positive, dispatch drop-status-change
with the next status and change nothing else; when positive, decompose and
render. The second component is the event detail dispatched on this tick. -/
def update (st : CountdownState) (now : Int) : CountdownState × Option Status :=
  let status := getStatus st.startDate st.endDate now
  if status = Status.ended then (showEnded st, none)
  else
    let targetDate := if status = Status.upcoming then st.startDate else st.endDate
    match targetDate with
    | none => (showEnded st, none)
    | some target =>
      let diff := target - now
      if diff ≤ 0 then
        (st, some (if status = Status.upcoming then Status.live else Status.ended))
      else
        let d := decompose diff
        (setValues st d.1 d.2.1 d.2.2.1 d.2.2.2, none)

/-- DropCountdown.connectedCallback (lines 14-27): parse the two dates; if
both are absent, stay inert; otherwise look up the four slots, run update
once, then install the 1-second interval. The element texts are whatever the
markup supplied. -/
def connectedCallback (startDate endDate : Option Int)
    (daysEl hoursEl minutesEl secondsEl : Option String) (now : Int) :
    CountdownState × Option Status :=
  let st : CountdownState :=
    { startDate := startDate, endDate := endDate, intervalActive := false,
      endedClass := false, daysEl := daysEl, hoursEl := hoursEl,
      minutesEl := minutesEl, secondsEl := secondsEl }
  if startDate = none ∧ endDate = none then (st, none)
  else
    let r := update st now
    ({ r.1 with intervalActive := true }, r.2)

/-- DropCountdown.disconnectedCallback (lines 29-33): clear the interval when
one is set. (The source does not null the field here; only whether a timer is
still scheduled is observable, which intervalActive records.) -/
def disconnectedCallback (st : CountdownState) : CountdownState :=
  if st.intervalActive then { st with intervalActive := false } else st

end DropCountdown

namespace DropStatus

/-- The string DropStatus stores in the data-status attribute and class name. -/
def statusStr : Status → String
  | .upcoming => "upcoming"
  | .live => "live"
  | .ended => "ended"

/-- The textMap literal of DropStatus.updateStatus (lines 156-160). -/
def textMap : Status → String
  | .upcoming => "Coming Soon"
  | .live => "Drop Live"
  | .ended => "Drop Ended"

/-- The presentation state DropStatus.updateStatus writes when the badge,
add-button and notify-section elements are all present (lines 147-179). -/
structure StatusUI where
  dataStatus : String
  badgeClass : String
  badgeText : String
  addDisabled : Bool
  addDisabledClass : Bool
  addText : String
  notifyDisplay : String
  deriving DecidableEq, Repr

/-- The UI writes of DropStatus.updateStatus (lines 147-179) as a function of
the computed status: badge class and text from textMap; the add button is
enabled with text Add to Cart exactly when live, else disabled with Coming
Soon for upcoming and Sold Out otherwise; the notify section displays flex
unless live, when it is none. -/
def updateStatusUI (status : Status) : StatusUI :=
  { dataStatus := statusStr status
    badgeClass := "drop-status drop-status--" ++ statusStr status
    badgeText := textMap status
    addDisabled := if status = Status.live then false else true
    addDisabledClass := if status = Status.live then false else true
    addText :=
      if status = Status.live then "Add to Cart"
      else if status = Status.upcoming then "Coming Soon" else "Sold Out"
    notifyDisplay := if status = Status.live then "none" else "flex" }

end DropStatus

namespace DropNotify

/-- The observable outcome of the awaited fetch call: the promise either
resolves with some HTTP response status, or rejects (network/transport
failure), which is the only way into the catch block. -/
inductive FetchOutcome
  | resolved (httpStatus : Nat)
  | rejected
  deriving DecidableEq, Repr

/-- The DOM state DropNotify.handleSubmit touches: the submit button's
disabled flag and label, the display style of the form and of the success
message, and whether an error was written to the console log. -/
structure NotifyState where
  buttonDisabled : Bool
  buttonText : String
  formDisplay : String
  successDisplay : String
  errorLogged : Bool
  deriving DecidableEq, Repr

/-- DropNotify.handleSubmit (lines 204-233): an empty (falsy) email returns
at once; otherwise disable the button and show the busy label, then await the
fetch. A resolved promise — whatever its HTTP status, which is never read —
hides the form and shows the success panel; only a rejected promise reaches
the catch block, which logs, re-enables the button and writes the Notify Me
label. -/
def handleSubmit (st : NotifyState) (email : String) (outcome : FetchOutcome) :
    NotifyState :=
  if email = "" then st
  else
    let st1 := { st with buttonDisabled := true, buttonText := "Submitting..." }
    match outcome with
    | .resolved _ =>
      { st1 with formDisplay := "none", successDisplay := "flex" }
    | .rejected =>
      { st1 with errorLogged := true, buttonDisabled := false,
                 buttonText := "Notify Me" }

end DropNotify

/-- Concrete scenario from the spec: a drop-countdown whose start is 5000 ms
after the reference instant 0 and whose end is absent, after the markup slots
were found and the interval installed. -/
def upcomingNoEndScenario : DropCountdown.CountdownState :=
  { startDate := some 5000, endDate := none, intervalActive := true,
    endedClass := false, daysEl := some "00", hoursEl := some "00",
    minutesEl := some "00", secondsEl := some "04" }

/-- Concrete drop-countdown state whose window is entirely in the past, with
the interval still installed and stale digits on display. -/
def endedTickScenario : DropCountdown.CountdownState :=
  { startDate := some 0, endDate := some 3, intervalActive := true,
    endedClass := false, daysEl := some "11", hoursEl := some "22",
    minutesEl := some "33", secondsEl := some "44" }

/-- Concrete drop-notify state as the markup ships it: enabled button with
the Notify Me label, visible form, hidden success panel, nothing logged. -/
def notifyInitialState : DropNotify.NotifyState :=
  { buttonDisabled := false, buttonText := "Notify Me", formDisplay := "flex",
    successDisplay := "none", errorLogged := false }

/-! ## Helper lemmas -/

/-- Nat.toDigitsCore never shortens its accumulator. -/
theorem length_le_toDigitsCore (fuel : Nat) : ∀ (n : Nat) (l : List Char),
    l.length ≤ (Nat.toDigitsCore 10 fuel n l).length := by
  induction fuel with
  | zero => intro n l; simp [Nat.toDigitsCore]
  | succ f ih =>
    intro n l
    simp only [Nat.toDigitsCore]
    split
    · simp
    · exact le_trans (by simp) (ih (n / 10) _)

/-- With fuel left and one character already accumulated, Nat.toDigitsCore
produces at least two characters. -/
theorem two_le_toDigitsCore_cons (fuel q : Nat) (c : Char) :
    2 ≤ (Nat.toDigitsCore 10 (fuel + 1) q [c]).length := by
  simp only [Nat.toDigitsCore]
  split
  · simp
  · exact le_trans (by simp) (length_le_toDigitsCore fuel (q / 10) _)

/-- The decimal representation of a natural number of at least 10 has at
least two characters. -/
theorem two_le_repr_length (n : Nat) (hn : 10 ≤ n) : 2 ≤ (Nat.repr n).length := by
  obtain ⟨m, rfl⟩ : ∃ m, n = m + 1 := ⟨n - 1, by omega⟩
  have h10 : ¬ (m + 1) / 10 = 0 := by omega
  show 2 ≤ (Nat.toDigitsCore 10 (m + 1 + 1) (m + 1) []).length
  simp only [Nat.toDigitsCore]
  rw [if_neg h10]
  exact two_le_toDigitsCore_cons m ((m + 1) / 10) _

/-- On a nonnegative integer, toString agrees with the natural-number
decimal representation. -/
theorem toString_int_nonneg (n : Int) (h : 0 ≤ n) :
    toString n = Nat.repr n.toNat := by
  cases n with
  | ofNat m => rfl
  | negSucc m => exact absurd h (Int.negSucc_lt_zero m).not_le

/-- DropCountdown.update never dispatches a drop-status-change event: the
dispatch branch requires diff ≤ 0 for the target chosen by the status, but a
status of upcoming or live was computed from the same instant and already
implies that its target is strictly in the future. -/
theorem update_snd_eq_none (st : DropCountdown.CountdownState) (now : Int) :
    (DropCountdown.update st now).2 = none := by
  rcases hs : st.startDate with _ | s <;> rcases he : st.endDate with _ | e <;>
    simp only [DropCountdown.update, DropCountdown.getStatus, ltOpt, hs, he] <;>
    (repeat' split) <;> (try simp_all) <;> omega

/-- padZero renders 0 as the two-character string 00. -/
theorem padZero_zero : DropCountdown.padZero 0 = "00" := by decide

/-- Field-level description of DropCountdown.showEnded: dates are untouched,
the interval is cleared, the ended class is set, every present digit slot
reads 00. -/
theorem showEnded_fields (st : DropCountdown.CountdownState) :
    (DropCountdown.showEnded st).startDate = st.startDate ∧
    (DropCountdown.showEnded st).endDate = st.endDate ∧
    (DropCountdown.showEnded st).intervalActive = false ∧
    (DropCountdown.showEnded st).endedClass = true ∧
    (DropCountdown.showEnded st).daysEl = st.daysEl.map (fun _ => "00") ∧
    (DropCountdown.showEnded st).hoursEl = st.hoursEl.map (fun _ => "00") ∧
    (DropCountdown.showEnded st).minutesEl = st.minutesEl.map (fun _ => "00") ∧
    (DropCountdown.showEnded st).secondsEl = st.secondsEl.map (fun _ => "00") := by
  simp only [DropCountdown.showEnded, DropCountdown.setValues,
    DropCountdown.setSlot, padZero_zero]
  split <;> simp_all

/-- A tick whose computed status is Ended reduces to showEnded and emits
nothing. -/
theorem update_of_ended (st : DropCountdown.CountdownState) (now : Int)
    (h : DropCountdown.getStatus st.startDate st.endDate now = Status.ended) :
    DropCountdown.update st now = (DropCountdown.showEnded st, none) := by
  simp [DropCountdown.update, h]

/-! ## Claims -/

/-- Claim C1: for every now and every pair of optional instants, the derived
status is a pure total function returning exactly one of Upcoming, Live,
Ended; it follows the three-way rule as the spec words it, and
DropCountdown.getStatus and the status computation inside
DropStatus.updateStatus implement the identical rule. -/
theorem c1_status_rule_pure_total_and_shared (now : Int) (s e : Option Int) :
    DropCountdown.getStatus s e now = DropStatus.computeStatus s e now ∧
    DropCountdown.getStatus s e now = statusOfSpec now s e ∧
    (DropCountdown.getStatus s e now = Status.upcoming ∨
     DropCountdown.getStatus s e now = Status.live ∨
     DropCountdown.getStatus s e now = Status.ended) := by
  refine ⟨rfl, ?_, ?_⟩
  · cases s <;> cases e <;>
      simp only [DropCountdown.getStatus, statusOfSpec, ltOpt] <;>
      (repeat' split) <;> simp_all
  · cases h : DropCountdown.getStatus s e now <;> simp

/-- Claim C2, counterexample: with startInstant 5, endInstant absent and
now = 10 (past the start), both status computations return Ended, not Live,
refuting the claim that an absent endInstant keeps a started drop Live. -/
theorem c2_counterexample_absent_end_gives_ended :
    DropCountdown.getStatus (some 5) none 10 = Status.ended ∧
    DropStatus.computeStatus (some 5) none 10 = Status.ended ∧
    DropCountdown.getStatus (some 5) none 10 ≠ Status.live := by
  decide

/-- Claim C2, amended: when endInstant is absent and startInstant is present,
the derived status is Upcoming strictly before the start and Ended from the
start instant onward; it is never Live, because the live branch requires a
present endInstant. -/
theorem c2_amended_absent_end_never_live (s now : Int) :
    DropCountdown.getStatus (some s) none now =
      (if now < s then Status.upcoming else Status.ended) ∧
    DropStatus.computeStatus (some s) none now =
      (if now < s then Status.upcoming else Status.ended) ∧
    DropCountdown.getStatus (some s) none now ≠ Status.live := by
  refine ⟨?_, ?_, ?_⟩ <;>
    simp only [DropCountdown.getStatus, DropStatus.computeStatus, ltOpt] <;>
    (repeat' split) <;> simp_all

/-- Claim C3: the drop-status-change dispatch is unreachable — update never
emits an event on any state and any instant, because the status is recomputed
from the same instant that diff uses. In the spec scenario (start 5000 ms
ahead of instant 0, end absent, initially Upcoming), the tick after the start
has passed dispatches nothing and instead enters the ended presentation,
contradicting the specified single status-change Live event. -/
theorem c3_status_change_event_never_dispatched :
    (∀ (st : DropCountdown.CountdownState) (now : Int),
        (DropCountdown.update st now).2 = none) ∧
    DropCountdown.getStatus (some 5000) none 0 = Status.upcoming ∧
    (DropCountdown.update upcomingNoEndScenario 6000).2 = none ∧
    (DropCountdown.update upcomingNoEndScenario 6000).1.intervalActive = false ∧
    (DropCountdown.update upcomingNoEndScenario 6000).1.endedClass = true ∧
    (DropCountdown.update upcomingNoEndScenario 6000).1.secondsEl = some "00" := by
  exact ⟨update_snd_eq_none, by decide, by decide, by decide, by decide, by decide⟩

/-- Claim C4: with both instants present and start before end, the derived
status is monotone non-decreasing in now under Upcoming < Live < Ended, and
once now has reached the end instant the status is Ended, at that instant and
at every later one. -/
theorem c4_status_monotone_nondecreasing_and_ended_terminal
    (s e n1 n2 : Int) (hse : s < e) (h12 : n1 ≤ n2) :
    Status.rank (DropCountdown.getStatus (some s) (some e) n1) ≤
      Status.rank (DropCountdown.getStatus (some s) (some e) n2) ∧
    (e ≤ n1 → DropCountdown.getStatus (some s) (some e) n1 = Status.ended) ∧
    (e ≤ n1 → DropCountdown.getStatus (some s) (some e) n2 = Status.ended) := by
  refine ⟨?_, ?_, ?_⟩
  · simp only [DropCountdown.getStatus, ltOpt, decide_eq_true_eq]
    split_ifs <;> simp only [Status.rank] <;> omega
  · intro he
    simp only [DropCountdown.getStatus, ltOpt, decide_eq_true_eq]
    split_ifs <;> first | rfl | (exfalso; omega)
  · intro he
    simp only [DropCountdown.getStatus, ltOpt, decide_eq_true_eq]
    split_ifs <;> first | rfl | (exfalso; omega)

/-- Claim C4 witness: the monotonicity and terminality instantiated on the
window 0..10 at instants 10 and 25. -/
theorem c4_witness_concrete :
    Status.rank (DropCountdown.getStatus (some 0) (some 10) 10) ≤
      Status.rank (DropCountdown.getStatus (some 0) (some 10) 25) ∧
    DropCountdown.getStatus (some 0) (some 10) 10 = Status.ended ∧
    DropCountdown.getStatus (some 0) (some 10) 25 = Status.ended :=
  ⟨(c4_status_monotone_nondecreasing_and_ended_terminal 0 10 10 25
      (by decide) (by decide)).1,
   (c4_status_monotone_nondecreasing_and_ended_terminal 0 10 10 25
      (by decide) (by decide)).2.1 (by decide),
   (c4_status_monotone_nondecreasing_and_ended_terminal 0 10 10 25
      (by decide) (by decide)).2.2 (by decide)⟩

/-- Claim C5, counterexample: attaching with a window fully in the past
(start 0, end 10, now 100, so the initial status is Ended) zeroes the digits
and sets the ended class, yet connectedCallback still installs the recurring
interval afterwards — it does not return without scheduling the tick. -/
theorem c5_counterexample_initial_ended_still_schedules_tick :
    (DropCountdown.connectedCallback (some 0) (some 10)
      (some "07") (some "08") (some "09") (some "10") 100).1.intervalActive = true ∧
    (DropCountdown.connectedCallback (some 0) (some 10)
      (some "07") (some "08") (some "09") (some "10") 100).1.endedClass = true ∧
    (DropCountdown.connectedCallback (some 0) (some 10)
      (some "07") (some "08") (some "09") (some "10") 100).1.daysEl = some "00" := by
  decide

/-- Claim C5, amended: when the initial status at attach is Ended, the
component does apply the ended presentation (ended class, every present digit
slot zeroed, nothing dispatched) but still schedules the recurring tick; any
tick that computes status Ended — including the first tick after such an
attach — cancels the interval, zeroes the digit slots and dispatches
nothing. -/
theorem c5_amended_ended_presentation_and_tick_cancellation
    (s e : Option Int) (dEl hEl mEl sEl : Option String)
    (now : Int) (st : DropCountdown.CountdownState) (t : Int)
    (hst : DropCountdown.getStatus s e now = Status.ended)
    (hne : ¬(s = none ∧ e = none))
    (hcross : DropCountdown.getStatus st.startDate st.endDate t = Status.ended) :
    (DropCountdown.connectedCallback s e dEl hEl mEl sEl now).1.intervalActive = true ∧
    (DropCountdown.connectedCallback s e dEl hEl mEl sEl now).1.endedClass = true ∧
    (DropCountdown.connectedCallback s e dEl hEl mEl sEl now).1.daysEl =
      dEl.map (fun _ => "00") ∧
    (DropCountdown.connectedCallback s e dEl hEl mEl sEl now).1.hoursEl =
      hEl.map (fun _ => "00") ∧
    (DropCountdown.connectedCallback s e dEl hEl mEl sEl now).1.minutesEl =
      mEl.map (fun _ => "00") ∧
    (DropCountdown.connectedCallback s e dEl hEl mEl sEl now).1.secondsEl =
      sEl.map (fun _ => "00") ∧
    (DropCountdown.connectedCallback s e dEl hEl mEl sEl now).2 = none ∧
    (DropCountdown.update st t).1.intervalActive = false ∧
    (DropCountdown.update st t).1.endedClass = true ∧
    (DropCountdown.update st t).1.daysEl = st.daysEl.map (fun _ => "00") ∧
    (DropCountdown.update st t).1.hoursEl = st.hoursEl.map (fun _ => "00") ∧
    (DropCountdown.update st t).1.minutesEl = st.minutesEl.map (fun _ => "00") ∧
    (DropCountdown.update st t).1.secondsEl = st.secondsEl.map (fun _ => "00") ∧
    (DropCountdown.update st t).2 = none := by
  have hrun : DropCountdown.connectedCallback s e dEl hEl mEl sEl now =
      ({ DropCountdown.showEnded
          ⟨s, e, false, false, dEl, hEl, mEl, sEl⟩ with intervalActive := true },
       none) := by
    simp only [DropCountdown.connectedCallback, if_neg hne]
    rw [update_of_ended _ now (by exact hst)]
  have hcr := update_of_ended st t hcross
  obtain ⟨-, -, -, f4, f5, f6, f7, f8⟩ :=
    showEnded_fields (⟨s, e, false, false, dEl, hEl, mEl, sEl⟩ :
      DropCountdown.CountdownState)
  obtain ⟨-, -, g3, g4, g5, g6, g7, g8⟩ := showEnded_fields st
  rw [hrun, hcr]
  exact ⟨rfl, f4, f5, f6, f7, f8, rfl, g3, g4, g5, g6, g7, g8, rfl⟩

/-- Claim C5 witness: the amended statement instantiated on the past window
0..10 attached at instant 50, and on a concrete stale state ticked at 7. -/
theorem c5_witness_concrete :
    (DropCountdown.connectedCallback (some 0) (some 10)
      (some "07") (some "08") (some "09") (some "10") 50).1.intervalActive = true ∧
    (DropCountdown.connectedCallback (some 0) (some 10)
      (some "07") (some "08") (some "09") (some "10") 50).1.endedClass = true ∧
    (DropCountdown.connectedCallback (some 0) (some 10)
      (some "07") (some "08") (some "09") (some "10") 50).1.daysEl =
      (some "07").map (fun _ => "00") ∧
    (DropCountdown.connectedCallback (some 0) (some 10)
      (some "07") (some "08") (some "09") (some "10") 50).1.hoursEl =
      (some "08").map (fun _ => "00") ∧
    (DropCountdown.connectedCallback (some 0) (some 10)
      (some "07") (some "08") (some "09") (some "10") 50).1.minutesEl =
      (some "09").map (fun _ => "00") ∧
    (DropCountdown.connectedCallback (some 0) (some 10)
      (some "07") (some "08") (some "09") (some "10") 50).1.secondsEl =
      (some "10").map (fun _ => "00") ∧
    (DropCountdown.connectedCallback (some 0) (some 10)
      (some "07") (some "08") (some "09") (some "10") 50).2 = none ∧
    (DropCountdown.update endedTickScenario 7).1.intervalActive = false ∧
    (DropCountdown.update endedTickScenario 7).1.endedClass = true ∧
    (DropCountdown.update endedTickScenario 7).1.daysEl =
      endedTickScenario.daysEl.map (fun _ => "00") ∧
    (DropCountdown.update endedTickScenario 7).1.hoursEl =
      endedTickScenario.hoursEl.map (fun _ => "00") ∧
    (DropCountdown.update endedTickScenario 7).1.minutesEl =
      endedTickScenario.minutesEl.map (fun _ => "00") ∧
    (DropCountdown.update endedTickScenario 7).1.secondsEl =
      endedTickScenario.secondsEl.map (fun _ => "00") ∧
    (DropCountdown.update endedTickScenario 7).2 = none :=
  c5_amended_ended_presentation_and_tick_cancellation (some 0) (some 10)
    (some "07") (some "08") (some "09") (some "10") 50 endedTickScenario 7
    (by decide) (by decide) (by decide)

/-- Claim C6: the status badge label follows the fixed mapping Coming Soon /
Drop Live / Drop Ended; the add button is enabled with text Add to Cart
exactly for Live and disabled otherwise, labelled Coming Soon for Upcoming
and Sold Out for Ended; the notify affordance is shown (flex) exactly when
the status is not Live and hidden (none) when it is. -/
theorem c6_status_display_fixed_mappings :
    (DropStatus.updateStatusUI Status.upcoming).badgeText = "Coming Soon" ∧
    (DropStatus.updateStatusUI Status.live).badgeText = "Drop Live" ∧
    (DropStatus.updateStatusUI Status.ended).badgeText = "Drop Ended" ∧
    (DropStatus.updateStatusUI Status.live).addDisabled = false ∧
    (DropStatus.updateStatusUI Status.live).addText = "Add to Cart" ∧
    (DropStatus.updateStatusUI Status.upcoming).addDisabled = true ∧
    (DropStatus.updateStatusUI Status.upcoming).addText = "Coming Soon" ∧
    (DropStatus.updateStatusUI Status.ended).addDisabled = true ∧
    (DropStatus.updateStatusUI Status.ended).addText = "Sold Out" ∧
    (DropStatus.updateStatusUI Status.live).notifyDisplay = "none" ∧
    (DropStatus.updateStatusUI Status.upcoming).notifyDisplay = "flex" ∧
    (DropStatus.updateStatusUI Status.ended).notifyDisplay = "flex" := by
  decide

/-- Claim C7: for a non-empty email, a resolved submission hides the form,
shows the success panel and leaves the trigger disabled — terminal, with no
resubmission path; a rejected submission re-enables the trigger with its
original Notify Me label, leaves the form visible and untouched, and logs the
condition. -/
theorem c7_notify_success_terminal_failure_recoverable
    (st : DropNotify.NotifyState) (email : String) (code : Nat)
    (hemail : email ≠ "") (hlabel : st.buttonText = "Notify Me")
    (hvis : st.formDisplay ≠ "none") :
    (DropNotify.handleSubmit st email (.resolved code)).formDisplay = "none" ∧
    (DropNotify.handleSubmit st email (.resolved code)).successDisplay = "flex" ∧
    (DropNotify.handleSubmit st email (.resolved code)).buttonDisabled = true ∧
    (DropNotify.handleSubmit st email .rejected).buttonDisabled = false ∧
    (DropNotify.handleSubmit st email .rejected).buttonText = st.buttonText ∧
    (DropNotify.handleSubmit st email .rejected).formDisplay = st.formDisplay ∧
    (DropNotify.handleSubmit st email .rejected).formDisplay ≠ "none" ∧
    (DropNotify.handleSubmit st email .rejected).successDisplay = st.successDisplay ∧
    (DropNotify.handleSubmit st email .rejected).errorLogged = true := by
  simp [DropNotify.handleSubmit, hemail, hlabel, hvis]

/-- Claim C7 witness: submitting a@b.com from the shipped initial state. -/
theorem c7_witness_concrete :
    (DropNotify.handleSubmit notifyInitialState "a@b.com"
      (.resolved 200)).formDisplay = "none" ∧
    (DropNotify.handleSubmit notifyInitialState "a@b.com"
      .rejected).buttonDisabled = false ∧
    (DropNotify.handleSubmit notifyInitialState "a@b.com"
      .rejected).buttonText = notifyInitialState.buttonText :=
  ⟨(c7_notify_success_terminal_failure_recoverable notifyInitialState
      "a@b.com" 200 (by decide) rfl (by decide)).1,
   (c7_notify_success_terminal_failure_recoverable notifyInitialState
      "a@b.com" 200 (by decide) rfl (by decide)).2.2.2.1,
   (c7_notify_success_terminal_failure_recoverable notifyInitialState
      "a@b.com" 200 (by decide) rfl (by decide)).2.2.2.2.1⟩

/-- Claim C8: the remaining-time decomposition is floor division with no
rounding — 90061001 ms gives 1 day, 1 hour, 1 minute, 1 second; padZero
renders 0 through 9 as two characters with a leading zero and leaves values
of 10 or more unpadded. -/
theorem c8_floor_decomposition_and_zero_padding :
    DropCountdown.decompose 90061001 = (1, 1, 1, 1) ∧
    DropCountdown.padZero 5 = "05" ∧
    DropCountdown.padZero 42 = "42" ∧
    (∀ n : Int, 0 ≤ n → n < 10 → (DropCountdown.padZero n).length = 2 ∧
        DropCountdown.padZero n = "0" ++ toString n) ∧
    (∀ n : Int, 10 ≤ n → DropCountdown.padZero n = toString n) := by
  refine ⟨by decide, by decide, by decide, ?_, ?_⟩
  · intro n h1 h2
    interval_cases n <;> exact ⟨by decide, by decide⟩
  · intro n hn
    have hlen : 2 ≤ (toString n).length := by
      rw [toString_int_nonneg n (by omega)]
      exact two_le_repr_length n.toNat (by omega)
    simp only [DropCountdown.padZero]
    rw [if_neg (by omega)]

/-- Claim C8 witness: padZero at 7 and at 123. -/
theorem c8_witness_concrete :
    ((DropCountdown.padZero 7).length = 2 ∧
      DropCountdown.padZero 7 = "0" ++ toString (7 : Int)) ∧
    DropCountdown.padZero 123 = toString (123 : Int) :=
  ⟨c8_floor_decomposition_and_zero_padding.2.2.2.1 7 (by decide) (by decide),
   c8_floor_decomposition_and_zero_padding.2.2.2.2 123 (by decide)⟩

/-- Claim C9: showEnded is idempotent — a second call from the ended state
reproduces the identical state with every present digit slot reading 00 — and
cancelling the interval is idempotent: disconnecting twice equals
disconnecting once, and disconnecting after the timer already stopped at
Ended changes nothing. All the modelled operations are total functions, so no
call can throw. -/
theorem c9_ended_handler_and_cancellation_idempotent
    (st : DropCountdown.CountdownState) :
    DropCountdown.showEnded (DropCountdown.showEnded st) =
      DropCountdown.showEnded st ∧
    (DropCountdown.showEnded st).daysEl = st.daysEl.map (fun _ => "00") ∧
    (DropCountdown.showEnded st).hoursEl = st.hoursEl.map (fun _ => "00") ∧
    (DropCountdown.showEnded st).minutesEl = st.minutesEl.map (fun _ => "00") ∧
    (DropCountdown.showEnded st).secondsEl = st.secondsEl.map (fun _ => "00") ∧
    DropCountdown.disconnectedCallback (DropCountdown.disconnectedCallback st) =
      DropCountdown.disconnectedCallback st ∧
    DropCountdown.disconnectedCallback (DropCountdown.showEnded st) =
      DropCountdown.showEnded st := by
  cases st
  refine ⟨?_, ?_, ?_, ?_, ?_, ?_, ?_⟩ <;>
    simp only [DropCountdown.showEnded, DropCountdown.setValues,
      DropCountdown.setSlot, DropCountdown.disconnectedCallback, padZero_zero] <;>
    (repeat' split) <;> simp_all [Option.map_map, Function.comp_def]

/-- Claim C10: the failure branch runs only when the fetch promise rejects. A
resolved response is never inspected — any HTTP status, 500 included, is
handled exactly like 200: form hidden, success panel shown, nothing logged,
trigger left disabled. -/
theorem c10_http_error_response_treated_as_success
    (st : DropNotify.NotifyState) (email : String) (hemail : email ≠ "") :
    DropNotify.handleSubmit st email (.resolved 500) =
      DropNotify.handleSubmit st email (.resolved 200) ∧
    (∀ c1 c2 : Nat, DropNotify.handleSubmit st email (.resolved c1) =
      DropNotify.handleSubmit st email (.resolved c2)) ∧
    (∀ c : Nat,
      (DropNotify.handleSubmit st email (.resolved c)).formDisplay = "none" ∧
      (DropNotify.handleSubmit st email (.resolved c)).successDisplay = "flex" ∧
      (DropNotify.handleSubmit st email (.resolved c)).errorLogged = st.errorLogged ∧
      (DropNotify.handleSubmit st email (.resolved c)).buttonDisabled = true) := by
  simp [DropNotify.handleSubmit, hemail]

/-- Claim C10 witness: a 500 response and a 200 response from the shipped
initial state produce identical component states. -/
theorem c10_witness_concrete :
    DropNotify.handleSubmit notifyInitialState "a@b.com" (.resolved 500) =
      DropNotify.handleSubmit notifyInitialState "a@b.com" (.resolved 200) :=
  (c10_http_error_response_treated_as_success notifyInitialState "a@b.com"
    (by decide)).1

end RefTheme
